import Mathlib

/-!
Shallow embedding of `src/legoworship/legoworship.py` (the `legoworship`
module of the lego-songbook repository), together with theorems settling
the frozen claims about its specification.

Modelling conventions:

* Python strings are `List Char` (Python compares strings by code point,
  which coincides with `Char` order on unicode scalar values).
* Fallible Python code (code that can raise) returns `Except PyErr _`;
  the constructors of `PyErr` name the Python exception classes that the
  module can raise (`TypeError`, `ValueError`, `KeyError`,
  `NotImplementedError`).
* `os.walk(library)` is modelled by its result: a list of
  `(dirpath, filenames)` pairs (the unused `dirnames` component is
  dropped, as the source binds it to `_`).
* A CSV file is modelled as its parsed rows (a list of rows, each row a
  list of cell strings), mirroring what the `csv` module hands back.
* YAML values (the song-info document) are modelled by the dynamic value
  type `YVal`; Python dict access on them is `getIt`, which raises
  `KeyError` exactly when the key is absent, as `resource["type"]` does.
* The external `pypinyin.lazy_pinyin` is modelled per its observable
  behaviour on the inputs the repository exercises: hanzi characters are
  converted one reading per character (readings for the characters used
  in the repository's tests and docstrings are tabulated; other
  characters fall back to being passed through, like `errors="default"`),
  and maximal runs of non-hanzi characters are passed through as a
  single element.  The source's own comment documents that the library
  default reading for 祢 is "mí".
-/

namespace Legoworship

/-- Convert a Lean string literal to the `List Char` representation used
for Python strings throughout this development. -/
def strL (s : String) : List Char := s.data

/-- Python exception outcomes raised by the `legoworship` module. -/
inductive PyErr where
  | typeError
  | valueError
  | keyError (k : List Char)
  | notImplementedError
deriving DecidableEq, Repr

/-- Dynamic (YAML-like) values: the shape of the records handled by
`Song.load_info_from_list`, `Song.info` and `SongList.export_song_info`. -/
inductive YVal where
  | vnull
  | vstr (s : List Char)
  | vint (n : Int)
  | vlist (l : List YVal)
  | vdict (d : List (List Char × YVal))

/-- Python truthiness of a `YVal` (`None`, `""`, `0`, `[]`, `{}` are falsy). -/
def YVal.truthy : YVal → Bool
  | .vnull => false
  | .vstr s => !s.isEmpty
  | .vint n => n != 0
  | .vlist l => !l.isEmpty
  | .vdict d => !d.isEmpty

/-- First-match association-list lookup (Python dict keys are unique, so
first match is the only match). -/
def assocLookup (d : List (List Char × YVal)) (k : List Char) : Option YVal :=
  match d with
  | [] => none
  | (k', v) :: rest => if k' = k then some v else assocLookup rest k

/-- Python subscription `v[k]` with a string key: succeeds on a dict that
has the key, raises `KeyError` on a dict without it, `TypeError` on
non-dict values (string/list subscripts need integers). -/
def getIt (v : YVal) (k : List Char) : Except PyErr YVal :=
  match v with
  | .vdict d =>
    match assocLookup d k with
    | some x => .ok x
    | none => .error (.keyError k)
  | _ => .error .typeError

/-- Python membership `k in v` for a dict value (the source only applies
it to dict records, after subscription has already succeeded on them). -/
def containsKey (v : YVal) (k : List Char) : Bool :=
  match v with
  | .vdict d => d.any (fun p => p.1 = k)
  | _ => false

/-- Python iteration over a value: lists yield elements, dicts yield
their keys, strings yield one-character strings, other values raise
`TypeError`. -/
def pyIter (v : YVal) : Except PyErr (List YVal) :=
  match v with
  | .vlist l => .ok l
  | .vdict d => .ok (d.map (fun p => .vstr p.1))
  | .vstr s => .ok (s.map (fun c => .vstr [c]))
  | _ => .error .typeError

/-- `SongResource` (legoworship.py lines 31-56).  The fields keep the
dynamic values Python would store in them: `find_resources` puts strings
there, `load_info_from_list` puts whatever the loaded record holds. -/
structure SongResource where
  resource_type : YVal
  location : YVal
  bpm : YVal := .vnull
  key : YVal := .vnull
  artist : YVal := .vnull
  album : YVal := .vnull

/-- `Song` (legoworship.py lines 62-72). -/
structure Song where
  title : List Char
  alternative_titles : Option (List (List Char)) := none
  original_key : Option (List Char) := none
  lyricist : Option (List Char) := none
  composer : Option (List Char) := none
  resources : Option (List SongResource) := none
  lyrics : Option YVal := none

/-- `SongList` (legoworship.py lines 199-217). -/
structure SongList where
  name : List Char
  songs : List Song

/-! ## The transliteration pipeline (`Song.pinyin_title`) -/

/-- CJK Unified Ideographs block test: the hanzi/non-hanzi split that
`pypinyin` performs on mixed input. -/
def isHan (c : Char) : Bool := 0x4E00 ≤ c.toNat && c.toNat ≤ 0x9FFF

/-- Lazy (tone-free) readings of the hanzi appearing in the repository's
tests and docstrings; the reading for 祢 is the library default "mi"
documented by the source comment at legoworship.py lines 13-14.  Other
hanzi fall back to pass-through (a partial table of the external
library's data). -/
def pinyinTable (c : Char) : Option (List Char) :=
  if c = '测' then some (strL ("ce"))
  else if c = '试' then some (strL ("shi"))
  else if c = '拼' then some (strL ("pin"))
  else if c = '音' then some (strL ("yin"))
  else if c = '歌' then some (strL ("ge"))
  else if c = '曲' then some (strL ("qu"))
  else if c = '第' then some (strL ("di"))
  else if c = '一' then some (strL ("yi"))
  else if c = '二' then some (strL ("er"))
  else if c = '首' then some (strL ("shou"))
  else if c = '祢' then some (strL ("mi"))
  else none

/-- Default per-character conversion used by `lazy_pinyin`. -/
def charReading (c : Char) : List Char := (pinyinTable c).getD [c]

/-- Emit a pending non-hanzi run (accumulated in reverse) as a single
element, as `lazy_pinyin` does. -/
def flushAcc (acc : List Char) : List (List Char) :=
  if acc.isEmpty then [] else [acc.reverse]

/-- Core of the `lazy_pinyin` model on one segment: hanzi characters are
converted one reading each (via `rd`), maximal non-hanzi runs are passed
through as one element. -/
def lazySegGo (rd : Char → List Char) (acc : List Char) : List Char → List (List Char)
  | [] => flushAcc acc
  | c :: cs =>
    if isHan c then flushAcc acc ++ (rd c :: lazySegGo rd [] cs)
    else lazySegGo rd (c :: acc) cs

/-- `lazy_pinyin` applied to a pre-segmented list of strings: the
per-segment results are concatenated. -/
def lazyPinyin (rd : Char → List Char) (segs : List (List Char)) : List (List Char) :=
  segs.flatMap (fun seg => lazySegGo rd [] seg)

/-- Python `s.split(sep)` for a one-character separator, as
(first segment, remaining segments); splits at every occurrence and
keeps empty segments, so `"".split(" ") == [""]`. -/
def pySplitF (c : Char) : List Char → List Char × List (List Char)
  | [] => ([], [])
  | x :: xs =>
    if x = c then ([], (pySplitF c xs).1 :: (pySplitF c xs).2)
    else (x :: (pySplitF c xs).1, (pySplitF c xs).2)

/-- Python `s.split(sep)` for a one-character separator. -/
def pySplit (c : Char) (s : List Char) : List (List Char) :=
  (pySplitF c s).1 :: (pySplitF c s).2

/-- Python `str.title()` (ASCII letters; the tokens this module titles
are pinyin readings and pass-through runs): an alphabetic character is
uppercased after a non-alphabetic and lowercased after an alphabetic. -/
def pyTitleGo (prevCased : Bool) : List Char → List Char
  | [] => []
  | c :: cs =>
    if c.isAlpha then
      (if prevCased then c.toLower else c.toUpper) :: pyTitleGo true cs
    else c :: pyTitleGo false cs

/-- Python `str.title()`. -/
def pyTitle (s : List Char) : List Char := pyTitleGo false s

/-- `Song.pinyin_title` (legoworship.py lines 74-89):
`[pinyin.title() for pinyin in lazy_pinyin(self.title.split(" "))]`.
The source calls `lazy_pinyin` without ever registering
`PINYIN_ADJUSTMENTS`, so the default readings are used. -/
def Song.pinyin_title (s : Song) : List (List Char) :=
  (lazyPinyin charReading (pySplit (' ') s.title)).map pyTitle

/-- `PINYIN_ADJUSTMENTS` (legoworship.py line 15): maps `ord("祢")` to
the pypinyin-format reading string `"nǐ,mí"`. -/
def PINYIN_ADJUSTMENTS : List (Nat × List Char) := [(0x7962, strL ("nǐ,mí"))]

/-- Strip the tone diacritics occurring in `PINYIN_ADJUSTMENTS` readings
(lazy pinyin form). -/
def stripTone (c : Char) : Char :=
  if c = 'ǐ' then 'i'
  else if c = 'í' then 'i'
  else if c = 'ì' then 'i'
  else if c = 'ī' then 'i'
  else c

/-- Modelled from the spec: the character→reading override map applied
before tokenization ("a pluggable character→reading override map applied
before tokenization", spec 4.1).  The source defines
`PINYIN_ADJUSTMENTS` but never loads it into the library
(`pypinyin.load_single_dict` is never called), so `Song.pinyin_title`
does not behave like this function; it is declared only to express what
the claim expects.  An adjusted character takes the first (preferred)
reading of its override entry, tone-stripped. -/
def adjustedReading (c : Char) : List Char :=
  match PINYIN_ADJUSTMENTS.lookup c.toNat with
  | some v => (v.takeWhile (fun x => x ≠ ',')).map stripTone
  | none => charReading c

/-- Modelled from the spec: `pinyin_title` as it would behave with the
override table applied (see `adjustedReading`). -/
def Song.pinyin_title_with_overrides (s : Song) : List (List Char) :=
  (lazyPinyin adjustedReading (pySplit (' ') s.title)).map pyTitle

/-! ## Resource matching (`Song.match_file`, `Song.find_resources`) -/

/-- The value of the Python expression
`extension if extension else SongResource.EXTENSIONS[resource_type]`:
either a single string or a whole list of strings.  The source wraps
this value in a one-element list, so the extension actually handed to
`str.endswith` can be a list. -/
inductive ExtVal where
  | str (s : List Char)
  | strList (l : List (List Char))

/-- `SongResource.EXTENSIONS` (legoworship.py lines 45-48). -/
def EXTENSIONS : List (List Char × List (List Char)) :=
  [(strL ("sheet"), [strL (".png"), strL (".pdf")]),
   (strL ("media"), [strL (".mp3"), strL (".m4a"), strL (".wav")])]

/-- Membership test `resource_type in SongResource.EXTENSIONS`. -/
def extHasKey (k : List Char) : Bool := EXTENSIONS.any (fun p => p.1 = k)

/-- Lookup `SongResource.EXTENSIONS[resource_type]`. -/
def extLookup (k : List Char) : List (List Char) :=
  match EXTENSIONS.find? (fun p => p.1 = k) with
  | some p => p.2
  | none => []

/-- Python substring containment `needle in hay` on strings. -/
def pyInStr (n : List Char) : List Char → Bool
  | [] => n.isEmpty
  | c :: cs => List.isPrefixOf n (c :: cs) || pyInStr n cs

/-- The inner loop of `Song.match_file`: `filename.endswith(extension)`
for each candidate; a list-valued candidate raises `TypeError`, exactly
as `str.endswith` does when handed a list. -/
def endsWithLoop (filename : List Char) : List ExtVal → Except PyErr Bool
  | [] => .ok false
  | .str e :: rest =>
    if e.isSuffixOf filename then .ok true else endsWithLoop filename rest
  | .strList _ :: _ => .error .typeError

/-- `Song.match_file` (legoworship.py lines 96-102): the filename must
contain the title as a substring, and then end with one of the
extensions. -/
def Song.match_file (s : Song) (filename : List Char) (extensions : List ExtVal) :
    Except PyErr Bool :=
  if pyInStr s.title filename then endsWithLoop filename extensions
  else .ok false

/-- The walked file tree: the `(dirpath, filenames)` pairs that
`os.walk` yields. -/
abbrev Walk := List (List Char × List (List Char))

/-- `os.path.join(root, file)`. -/
def joinPath (root file : List Char) : List Char := root ++ '/' :: file

/-- Python truthiness of the `extension` argument (`None` and `""` are
falsy). -/
def extFalsy (ext : Option (List Char)) : Bool :=
  match ext with
  | none => true
  | some e => e.isEmpty

/-- The file loop of `Song.find_resources` over one directory's files:
append one `SongResource` per matching file. -/
def findResFiles (s : Song) (resource_type : List Char) (searchExts : List ExtVal)
    (root : List Char) : List (List Char) → Except PyErr (List SongResource)
  | [] => .ok []
  | f :: fs => do
    let m ← s.match_file f searchExts
    let rest ← findResFiles s resource_type searchExts root fs
    if m then
      .ok ({ resource_type := .vstr resource_type,
             location := .vstr (joinPath root f) : SongResource} :: rest)
    else
      .ok rest

/-- The directory loop of `Song.find_resources`. -/
def findResWalk (s : Song) (resource_type : List Char) (searchExts : List ExtVal) :
    Walk → Except PyErr (List SongResource)
  | [] => .ok []
  | (root, files) :: rest => do
    let here ← findResFiles s resource_type searchExts root files
    let there ← findResWalk s resource_type searchExts rest
    .ok (here ++ there)

/-- `Song.find_resources` (legoworship.py lines 104-139).  Raises
`ValueError` when no usable extension is given and the resource type is
unknown; otherwise initialises `resources` to `[]` when absent, builds
the one-element search-extension list (a list of default extensions when
no explicit extension is given), walks the library appending matches,
and returns `True if self.resources else False` — the truthiness of the
whole resources list after the call. -/
def Song.find_resources (s : Song) (resource_type : List Char) (library : Walk)
    (extension : Option (List Char)) : Except PyErr (Song × Bool) :=
  if extFalsy extension && !extHasKey resource_type then .error .valueError
  else
    let base := s.resources.getD []
    let searchExts : List ExtVal :=
      [if extFalsy extension then .strList (extLookup resource_type)
       else .str (extension.getD [])]
    match findResWalk s resource_type searchExts library with
    | .error e => .error e
    | .ok found =>
      let final := base ++ found
      .ok ({ s with resources := some final }, !final.isEmpty)

/-! ## Song info records (`Song.load_info_from_list`, `Song.info`) -/

/-- Python `self.title == song_info["title"]`: a string compares equal
only to an equal string value. -/
def pyEqStr (v : YVal) (s : List Char) : Bool :=
  match v with
  | .vstr u => u = s
  | _ => false

/-- The resource-rebuilding loop of `Song.load_info_from_list`
(legoworship.py lines 152-162): subscription order follows the keyword
arguments as written in the source — `type`, `location`, `artist`,
`album`, `key`, `bpm`. -/
def buildResources : List YVal → Except PyErr (List SongResource)
  | [] => .ok []
  | r :: rs => do
    let t ← getIt r (strL ("type"))
    let loc ← getIt r (strL ("location"))
    let art ← getIt r (strL ("artist"))
    let alb ← getIt r (strL ("album"))
    let k ← getIt r (strL ("key"))
    let b ← getIt r (strL ("bpm"))
    let rest ← buildResources rs
    .ok ({ resource_type := t, location := loc, bpm := b, key := k,
           artist := art, album := alb : SongResource } :: rest)

/-- `Song.load_info_from_list` (legoworship.py lines 141-164): find the
first record whose `"title"` equals this song's title, merge its truthy
`lyrics` and `resources` fields in, then `break`. -/
def Song.load_info_from_list (s : Song) : List YVal → Except PyErr Song
  | [] => .ok s
  | record :: rest => do
    let t ← getIt record (strL ("title"))
    if pyEqStr t s.title then
      let s₁ :=
        if containsKey record (strL ("lyrics")) then
          match getIt record (strL ("lyrics")) with
          | .ok v => if v.truthy then { s with lyrics := some v } else s
          | .error _ => s
        else s
      if containsKey record (strL ("resources")) then
        match getIt record (strL ("resources")) with
        | .ok v =>
          if v.truthy then do
            let elems ← pyIter v
            let newRes ← buildResources elems
            .ok { s₁ with resources := some (s₁.resources.getD [] ++ newRes) }
          else .ok s₁
        | .error e => .error e
      else .ok s₁
    else s.load_info_from_list rest

/-- `attr.asdict` on a `SongResource`: the attribute names in
declaration order. -/
def SongResource.asdict (r : SongResource) : YVal :=
  .vdict [(strL ("resource_type"), r.resource_type),
          (strL ("location"), r.location),
          (strL ("bpm"), r.bpm),
          (strL ("key"), r.key),
          (strL ("artist"), r.artist),
          (strL ("album"), r.album)]

/-- `Song.info` (legoworship.py lines 166-176): the serialisable
snapshot `{title, resources (null when falsy), lyrics (null when
falsy)}`. -/
def Song.info (s : Song) : YVal :=
  .vdict [(strL ("title"), .vstr s.title),
          (strL ("resources"),
            match s.resources with
            | some rs => if rs.isEmpty then .vnull else .vlist (rs.map SongResource.asdict)
            | none => .vnull),
          (strL ("lyrics"),
            match s.lyrics with
            | some v => if v.truthy then v else .vnull
            | none => .vnull)]

/-! ## CSV import/export (`SongList.from_csv`, `SongList.export_csv`) -/

/-- `SongList._LEGACY_HEADER` (legoworship.py line 208). -/
def LEGACY_HEADER : List (List Char) :=
  [strL ("name"), strL ("key"), strL ("hymn_ref"), strL ("sheet_type")]

/-- `SongList._HEADER` (legoworship.py lines 209-215). -/
def HEADER : List (List Char) :=
  [strL ("title"), strL ("original_key"), strL ("alternative_titles"),
   strL ("lyricist"), strL ("composer")]

/-- Cell access `row[field]` on a `csv.DictReader` row: the row dict is
built by zipping the file's header (the reader's fieldnames) with the
row's cells; a field beyond the row's length gets the reader's
`restval` (`None`), a field not among the fieldnames raises `KeyError`. -/
def rowGet (fieldnames row : List (List Char)) (k : List Char) :
    Except PyErr (Option (List Char)) :=
  if fieldnames.contains k then
    .ok ((fieldnames.zip row).lookup k)
  else .error (.keyError k)

/-- The row loop of `SongList.from_csv` (legoworship.py lines 364-374).
`csv.DictReader` has already consumed the file's header row as its
fieldnames, so this loop runs over the data rows only; the source's
`line_count == 0` branch validates `row.keys()` (the fieldnames) against
the expected header and appends no song for that row. -/
def fromCsvLoop (legacy : Bool) (expected fieldnames : List (List Char)) (lc : Nat) :
    List (List (List Char)) → Except PyErr (List Song)
  | [] => .ok []
  | row :: rest =>
    if lc == 0 then
      if fieldnames ≠ expected then .error .valueError
      else fromCsvLoop legacy expected fieldnames (lc + 1) rest
    else do
      let t ← rowGet fieldnames row (if legacy then strL ("name") else strL ("title"))
      let k ← rowGet fieldnames row
        (if legacy then strL ("key") else strL ("original_key"))
      let ss ← fromCsvLoop legacy expected fieldnames (lc + 1) rest
      .ok ({ title := t.getD [], original_key := k : Song } :: ss)

/-- `SongList.from_csv` (legoworship.py lines 342-375).  The file is
given as its parsed rows; `fileName` stands for
`Path(csv_file_path).name`.  An empty file gives a `DictReader` with no
fieldnames and an empty iteration, hence an empty song list. -/
def SongList.from_csv (fileName : List Char) (rows : List (List (List Char)))
    (legacy : Bool) : Except PyErr SongList :=
  let expected := if legacy then LEGACY_HEADER else HEADER
  match rows with
  | [] => .ok { name := fileName, songs := [] }
  | fieldnames :: data =>
    match fromCsvLoop legacy expected fieldnames 0 data with
    | .error e => .error e
    | .ok songs => .ok { name := fileName, songs := songs }

/-- Join a list of strings with a separator (` " / ".join(...)`). -/
def joinSep (sep : List Char) : List (List Char) → List Char
  | [] => []
  | [x] => x
  | x :: y :: rest => x ++ sep ++ joinSep sep (y :: rest)

/-- `Song.alternative_title_string` (legoworship.py lines 91-94). -/
def Song.alternative_title_string (s : Song) : List Char :=
  joinSep (strL (" / ")) (s.alternative_titles.getD [])

/-- `SongList.export_csv` (legoworship.py lines 257-284), modelled as
the rows it writes (header row, then one row per song in fieldname
order; `None` cells are written as empty strings by the `csv` module). -/
def SongList.export_csv (sl : SongList) (legacy : Bool) : List (List (List Char)) :=
  if legacy then
    LEGACY_HEADER ::
      sl.songs.map (fun s => [s.title, s.original_key.getD [], [], []])
  else
    HEADER ::
      sl.songs.map (fun s =>
        [s.title, s.original_key.getD [], s.alternative_title_string,
         s.lyricist.getD [], s.composer.getD []])

/-! ## Sorting (`SongList.sort`) -/

/-- A sort-key value as produced by the two sort functions: `None`, a
string, or a list of strings.  Python's `<` is partial on these: `None`
does not compare with anything (not even with `None`). -/
inductive SKey where
  | knull
  | kstr (s : List Char)
  | kstrs (l : List (List Char))
deriving DecidableEq

/-- `SongList._sort_by_pinyin_title` (legoworship.py lines 219-222). -/
def SongList.sort_by_pinyin_title (s : Song) : SKey := .kstrs s.pinyin_title

/-- `SongList._sort_by_original_key` (legoworship.py lines 224-227). -/
def SongList.sort_by_original_key (s : Song) : SKey :=
  match s.original_key with
  | none => .knull
  | some k => .kstr k

/-- Whether a key is a string. -/
def SKey.isStr : SKey → Bool
  | .kstr _ => true
  | _ => false

/-- Whether a key is a list of strings. -/
def SKey.isStrs : SKey → Bool
  | .kstrs _ => true
  | _ => false

/-- All keys of the list are mutually comparable under Python `<`:
either all strings or all lists of strings.  Any list of two or more
keys containing a `None` makes `sorted` raise `TypeError`, since every
element takes part in at least one comparison and `None` compares with
nothing. -/
def comparableAll (ks : List SKey) : Bool :=
  ks.all SKey.isStr || ks.all SKey.isStrs

/-- Total extension of Python's `<=`-by-comparison on sort keys, using
the lexicographic orders on `List Char` and `List (List Char)` (Python
compares strings by code point and lists lexicographically).  On the
pairs Python can actually compare (string/string and list/list) it
agrees with Python; elsewhere its value is immaterial because `pySorted`
raises before comparing such pairs. -/
def leK : SKey → SKey → Bool
  | .knull, _ => true
  | .kstr _, .knull => false
  | .kstr a, .kstr b => decide (a ≤ b)
  | .kstr _, .kstrs _ => true
  | .kstrs _, .knull => false
  | .kstrs _, .kstr _ => false
  | .kstrs a, .kstrs b => decide (a ≤ b)

/-- The element comparator `sorted(..., key=f, reverse=desc)` sorts by:
ascending key order, or descending with ties still in original order
(CPython implements `reverse=True` as a stable descending sort). -/
def songLe (f : Song → SKey) (desc : Bool) (a b : Song) : Bool :=
  if desc then leK (f b) (f a) else leK (f a) (f b)

/-- Python `sorted(songs, key=f, reverse=desc)`: raises `TypeError` when
two or more elements carry keys that do not mutually compare, and
otherwise produces the stable sort by the key. -/
def pySorted (f : Song → SKey) (desc : Bool) (l : List Song) :
    Except PyErr (List Song) :=
  if decide (l.length ≤ 1) || comparableAll (l.map f) then
    .ok (l.mergeSort (songLe f desc))
  else .error .typeError

/-- The sort-function dispatch of `SongList.sort` (legoworship.py lines
245-250): `"title"` sorts by pinyin title, `"key"`/`"original_key"` by
the raw key, any other (already header-validated) name raises
`NotImplementedError`. -/
def selectSortFunc (by_ : List Char) : Except PyErr (Song → SKey) :=
  if by_ = strL ("title") then .ok SongList.sort_by_pinyin_title
  else if by_ = strL ("key") ∨ by_ = strL ("original_key") then
    .ok SongList.sort_by_original_key
  else .error .notImplementedError

/-- `SongList.sort` (legoworship.py lines 229-255): validate the sort
key against the format's header (`ValueError` otherwise), dispatch the
sort function (`NotImplementedError` for valid-but-unimplemented keys),
sort the songs, and return a new `SongList` with the same name. -/
def SongList.sort (sl : SongList) (by_ : List Char) (desc : Bool) (legacy : Bool) :
    Except PyErr SongList :=
  if (legacy && LEGACY_HEADER.contains by_) || (!legacy && HEADER.contains by_) then
    match selectSortFunc by_ with
    | .error e => .error e
    | .ok f =>
      match pySorted f desc sl.songs with
      | .error e => .error e
      | .ok songs => .ok { name := sl.name, songs := songs }
  else .error .valueError

/-! ## Free search functions (`find`, `find_multiple`) -/

/-- The result of `find`: the list of matches, or Python `False` when
nothing was found. -/
inductive FindRet where
  | found (l : List (List Char))
  | nothingFound
deriving DecidableEq

/-- The per-file match-and-collect of `find` (legoworship.py lines
384-396). -/
def findFiles (title what : List Char) (dirpath : List Char) :
    List (List Char) → List (List Char)
  | [] => []
  | f :: fs =>
    (if what = strL ("sheet") then
      (if pyInStr title f && List.isSuffixOf (strL (".png")) f &&
          pyInStr (strL ("TINY")) dirpath then [joinPath dirpath f] else [])
     else if what = strL ("media") then
      (if pyInStr title f && List.isSuffixOf (strL (".mp3")) f then
        [joinPath dirpath f] else [])
     else []) ++ findFiles title what dirpath fs

/-- The directory walk of `find`. -/
def findWalk (title what : List Char) : Walk → List (List Char)
  | [] => []
  | (dirpath, files) :: rest =>
    findFiles title what dirpath files ++ findWalk title what rest

/-- `find` (legoworship.py lines 378-400): raises `ValueError` for any
kind other than `"sheet"`/`"media"`, walks the tree collecting matches,
and returns `False` instead of an empty result list. -/
def find (title what : List Char) (path : Walk) : Except PyErr FindRet :=
  if what ≠ strL ("sheet") ∧ what ≠ strL ("media") then .error .valueError
  else
    let results := findWalk title what path
    if results.isEmpty then .ok .nothingFound
    else .ok (.found results)

/-- The innermost (per-song) loop of `find_multiple` (legoworship.py
lines 408-416): one appended path per song whose title matches the
file. -/
def findMulSongs (what dirpath filename : List Char) : List Song → List (List Char)
  | [] => []
  | s :: ss =>
    (if pyInStr s.title filename &&
        ((what = strL ("sheet") && List.isSuffixOf (strL (".png")) filename &&
          pyInStr (strL ("TINY")) dirpath) ||
         (what = strL ("media") && List.isSuffixOf (strL (".mp3")) filename)) then
      [joinPath dirpath filename]
     else []) ++ findMulSongs what dirpath filename ss

/-- The per-file loop of `find_multiple`. -/
def findMulFiles (what dirpath : List Char) (songs : List Song) :
    List (List Char) → List (List Char)
  | [] => []
  | f :: fs => findMulSongs what dirpath f songs ++ findMulFiles what dirpath songs fs

/-- `find_multiple` (legoworship.py lines 403-417): no kind validation;
returns the flat list of matches (possibly empty — unlike `find`, it
never raises and never converts an empty result to `False`). -/
def find_multiple (what : List Char) (path : Walk) (song_list : SongList) :
    List (List Char) :=
  match path with
  | [] => []
  | (dirpath, files) :: rest =>
    findMulFiles what dirpath song_list.songs files ++ find_multiple what rest song_list

/-! ## Helper lemmas: the tokenizer seen as one pass -/

/-- Fused form of split-then-`lazy_pinyin`: walk the title once, cutting
at spaces (dropped) and at hanzi (emitted as readings), accumulating
non-hanzi runs. -/
def tGo (rd : Char → List Char) (acc : List Char) : List Char → List (List Char)
  | [] => flushAcc acc
  | c :: cs =>
    if c = ' ' then flushAcc acc ++ tGo rd [] cs
    else if isHan c then flushAcc acc ++ (rd c :: tGo rd [] cs)
    else tGo rd (c :: acc) cs

theorem tGo_cons (rd : Char → List Char) (acc : List Char) (c : Char) (cs : List Char) :
    tGo rd acc (c :: cs) =
      if c = ' ' then flushAcc acc ++ tGo rd [] cs
      else if isHan c then flushAcc acc ++ (rd c :: tGo rd [] cs)
      else tGo rd (c :: acc) cs := rfl

theorem lazySegGo_cons (rd : Char → List Char) (acc : List Char) (c : Char)
    (cs : List Char) :
    lazySegGo rd acc (c :: cs) =
      if isHan c then flushAcc acc ++ (rd c :: lazySegGo rd [] cs)
      else lazySegGo rd (c :: acc) cs := rfl

theorem fusionE (rd : Char → List Char) :
    ∀ (s : List Char) (acc : List Char),
      lazySegGo rd acc (pySplitF (' ') s).1 ++
        ((pySplitF (' ') s).2.flatMap (fun seg => lazySegGo rd [] seg)) =
      tGo rd acc s := by
  intro s
  induction s with
  | nil => intro acc; simp [pySplitF, lazySegGo, tGo]
  | cons x xs ih =>
    intro acc
    rw [tGo_cons]
    by_cases hx : x = ' '
    · rw [if_pos hx, ← ih []]
      simp [pySplitF, hx, lazySegGo, List.flatMap_cons, List.append_assoc]
    · by_cases hh : isHan x
      · rw [if_neg hx, if_pos hh, ← ih []]
        simp [pySplitF, hx, lazySegGo_cons, hh, List.append_assoc]
      · rw [if_neg hx, if_neg hh, ← ih (x :: acc)]
        simp [pySplitF, hx, lazySegGo_cons, hh]

theorem tokens_eq (rd : Char → List Char) (u : List Char) :
    lazyPinyin rd (pySplit (' ') u) = tGo rd [] u := by
  have := fusionE rd u []
  simpa [lazyPinyin, pySplit, List.flatMap_cons] using this

/-- The title ends in a hanzi character. -/
def endsHan : List Char → Bool
  | [] => false
  | [c] => isHan c
  | _ :: c :: cs => endsHan (c :: cs)

theorem tGo_append_endsHan (rd : Char → List Char) (t : List Char) :
    ∀ (s : List Char), endsHan s = true →
      ∀ acc, tGo rd acc (s ++ t) = tGo rd acc s ++ tGo rd [] t := by
  intro s
  induction s with
  | nil => intro h; simp [endsHan] at h
  | cons x xs ih =>
    intro h acc
    cases hxs : xs with
    | nil =>
      subst hxs
      have hh : isHan x = true := by simpa [endsHan] using h
      have hx : x ≠ ' ' := by
        intro e; subst e; exact absurd hh (by decide)
      rw [List.cons_append, List.nil_append, tGo_cons, if_neg hx, if_pos hh,
        tGo_cons, if_neg hx, if_pos hh]
      simp [tGo, flushAcc]
    | cons y ys =>
      subst hxs
      have h' : endsHan (y :: ys) = true := by simpa [endsHan] using h
      rw [List.cons_append, tGo_cons, tGo_cons]
      by_cases hx : x = ' '
      · rw [if_pos hx, if_pos hx, ih h' [], List.append_assoc]
      · by_cases hh : isHan x
        · rw [if_neg hx, if_neg hx, if_pos hh, if_pos hh, ih h' []]
          simp [List.append_assoc]
        · rw [if_neg hx, if_neg hx, if_neg hh, if_neg hh, ih h' (x :: acc)]

theorem tGo_append_space (rd : Char → List Char) (t : List Char) :
    ∀ (s : List Char) (acc : List Char),
      tGo rd acc (s ++ ' ' :: t) = tGo rd acc s ++ tGo rd [] t := by
  intro s
  induction s with
  | nil =>
    intro acc
    rw [List.nil_append, tGo_cons, if_pos rfl]
    simp [tGo]
  | cons x xs ih =>
    intro acc
    rw [List.cons_append, tGo_cons, tGo_cons]
    by_cases hx : x = ' '
    · rw [if_pos hx, if_pos hx, ih, List.append_assoc]
    · by_cases hh : isHan x
      · rw [if_neg hx, if_neg hx, if_pos hh, if_pos hh, ih]
        simp [List.append_assoc]
      · rw [if_neg hx, if_neg hx, if_neg hh, if_neg hh, ih]

/-! ## Helper lemmas: the key order used by `sorted` -/

theorem leK_refl (k : SKey) : leK k k = true := by
  cases k <;> simp [leK]

theorem leK_trans {a b c : SKey} (h1 : leK a b = true) (h2 : leK b c = true) :
    leK a c = true := by
  cases a <;> cases b <;> cases c <;> simp_all [leK] <;> exact le_trans h1 h2

theorem leK_total (a b : SKey) : (leK a b || leK b a) = true := by
  cases a <;> cases b <;> simp [leK] <;> exact le_total _ _

theorem songLe_trans (f : Song → SKey) (desc : Bool) :
    ∀ a b c, songLe f desc a b = true → songLe f desc b c = true →
      songLe f desc a c = true := by
  intro a b c h1 h2
  cases desc <;> simp [songLe] at h1 h2 ⊢
  · exact leK_trans h1 h2
  · exact leK_trans h2 h1

theorem songLe_total (f : Song → SKey) (desc : Bool) :
    ∀ a b, (songLe f desc a b || songLe f desc b a) = true := by
  intro a b
  cases desc <;> simp [songLe]
  · simpa using leK_total (f a) (f b)
  · exact Or.symm (by simpa using leK_total (f a) (f b))

theorem pySorted_ok {f : Song → SKey} {desc : Bool} {l songs : List Song}
    (h : pySorted f desc l = .ok songs) :
    songs = l.mergeSort (songLe f desc) := by
  unfold pySorted at h
  split at h
  · exact (Except.ok.inj h).symm
  · simp at h

theorem mergeSort_key_stable (f : Song → SKey) (desc : Bool) (l : List Song) (k : SKey) :
    (l.mergeSort (songLe f desc)).filter (fun s => decide (f s = k)) =
      l.filter (fun s => decide (f s = k)) := by
  set p : Song → Bool := fun s => decide (f s = k) with hp
  have hsub : List.Sublist (l.filter p) l := List.filter_sublist l
  have hpair : (l.filter p).Pairwise (fun a b => songLe f desc a b = true) := by
    apply List.pairwise_of_forall_mem_list
    intro a ha b hb
    have hfa : f a = k := by
      have := List.of_mem_filter ha
      simpa [hp] using this
    have hfb : f b = k := by
      have := List.of_mem_filter hb
      simpa [hp] using this
    cases desc <;> simp [songLe, hfa, hfb, leK_refl]
  have hst : List.Sublist (l.filter p) (l.mergeSort (songLe f desc)) :=
    List.sublist_mergeSort (songLe_trans f desc) (songLe_total f desc) hpair hsub
  have hperm : List.Perm ((l.mergeSort (songLe f desc)).filter p) (l.filter p) :=
    (List.mergeSort_perm l _).filter p
  have hf2 : (l.filter p).filter p = l.filter p :=
    List.filter_eq_self.mpr (fun a ha => List.of_mem_filter ha)
  have hsub2 : List.Sublist (l.filter p) ((l.mergeSort (songLe f desc)).filter p) := by
    have := List.Sublist.filter p hst
    rwa [hf2] at this
  exact (hsub2.eq_of_length hperm.length_eq.symm).symm

/-! ## Claim theorems -/

/-- Claim C1: the claim says `from_csv` builds one `Song` per data row
after the header, so the catalog's song count equals the number of data
rows and a re-export writes one row per input song.  The code instead
hands the file to `csv.DictReader`, which already consumes the header
row, and then treats the first yielded row (the first data row) as the
header, never turning it into a song: a current-format file with a valid
header and one data row imports to zero songs, and re-exporting writes
the header with no data rows. -/
theorem c1_from_csv_drops_first_data_row :
    SongList.from_csv (strL ("songs.csv"))
        [HEADER, [strL ("Amazing Grace"), strL ("G"), [], [], []]] false =
      .ok { name := strL ("songs.csv"), songs := [] } ∧
    SongList.export_csv { name := strL ("songs.csv"), songs := [] } false =
      [HEADER] :=
  ⟨rfl, rfl⟩

/-- Claim C2: the claim says `sort(by="original_key")` (and legacy
`by="key"`) succeeds for every catalog, with missing keys ordered before
present ones.  The code calls Python `sorted` on `Optional[str]` keys,
and Python 3 refuses to compare `None` with a string: a catalog mixing a
song with no `original_key` and a song with one makes the sort raise
`TypeError` instead of succeeding, in both the current and the legacy
format. -/
theorem c2_sort_mixed_null_key_raises :
    SongList.sort
        { name := strL ("L"),
          songs := [{ title := strL ("a") },
                    { title := strL ("b"), original_key := some (strL ("A")) }] }
        (strL ("original_key")) false false = .error .typeError ∧
    SongList.sort
        { name := strL ("L"),
          songs := [{ title := strL ("a") },
                    { title := strL ("b"), original_key := some (strL ("A")) }] }
        (strL ("key")) false true = .error .typeError :=
  ⟨rfl, rfl⟩

/-- Claim C3: the claim says `find_resources` with no explicit extension
appends one `SongResource` per file matching the builtin default
extensions.  The code builds `[EXTENSIONS[resource_type]]` — a list
whose single element is the whole default-extension list — and hands
that inner list to `str.endswith`, which raises `TypeError`; so the
default-extension path crashes on the very first file whose name
contains the title (here `a.png` for the song `a`) instead of appending
a resource. -/
theorem c3_find_resources_default_extensions_raise :
    Song.find_resources { title := strL ("a") } (strL ("sheet"))
        [(strL ("d"), [strL ("a.png")])] none = .error .typeError :=
  rfl

/-- Claim C4: the claim says the override map `PINYIN_ADJUSTMENTS` is
applied before tokenization, so 祢 transliterates to its overridden
preferred reading "Ni".  The source defines the table but never loads it
into `pypinyin`, so `pinyin_title` emits the library default "Mi"
(documented by the source's own comment); the spec-modelled variant that
does apply the override emits "Ni", and the two disagree. -/
theorem c4_pinyin_adjustments_never_applied :
    Song.pinyin_title { title := strL ("祢") } = [strL ("Mi")] ∧
    Song.pinyin_title_with_overrides { title := strL ("祢") } = [strL ("Ni")] ∧
    Song.pinyin_title { title := strL ("祢") } ≠
      Song.pinyin_title_with_overrides { title := strL ("祢") } :=
  ⟨by decide, by decide, by decide⟩

/-- Claim C5: a title in which a CJK run is immediately followed by more
text with no intervening whitespace tokenizes exactly as if a space were
present at the boundary: for every title split as `s ++ t` with `s`
ending in a hanzi character, `pinyin_title` of `s ++ t` equals
`pinyin_title` of `s ++ " " ++ t` (in particular for a following Latin
run such as "测试Song" versus "测试 Song"). -/
theorem c5_script_boundary_split (s t : List Char) (h : endsHan s = true) :
    Song.pinyin_title { title := s ++ t } =
      Song.pinyin_title { title := s ++ ' ' :: t } := by
  show (lazyPinyin charReading (pySplit (' ') (s ++ t))).map pyTitle =
    (lazyPinyin charReading (pySplit (' ') (s ++ ' ' :: t))).map pyTitle
  rw [tokens_eq, tokens_eq, tGo_append_endsHan charReading t s h [],
    tGo_append_space charReading t s []]

/-- Claim C5 witness: instantiating the boundary-split theorem at
"测试" / "Song", whose concatenation evaluates to `["Ce","Shi","Song"]`. -/
theorem c5_script_boundary_split_witness :
    endsHan (strL ("测试")) = true ∧
    Song.pinyin_title { title := strL ("测试") ++ strL ("Song") } =
      Song.pinyin_title { title := strL ("测试") ++ ' ' :: strL ("Song") } ∧
    Song.pinyin_title { title := strL ("测试Song") } =
      [strL ("Ce"), strL ("Shi"), strL ("Song")] ∧
    Song.pinyin_title { title := strL ("测试 Song") } =
      [strL ("Ce"), strL ("Shi"), strL ("Song")] :=
  ⟨by decide, c5_script_boundary_split (strL ("测试")) (strL ("Song")) (by decide),
   by decide, by decide⟩

/-- Claim C6 counterexample: the claim says `find_resources` returns
true iff the call itself appended at least one resource, and in
particular returns false when a song with pre-existing resources
matches nothing.  Here the song already holds one resource, the walk
contains no file whose name contains the title, an explicit extension
is given (so no `TypeError` path is taken) — and the call still returns
`true`, because the source returns the truthiness of the whole
`resources` list after the call. -/
theorem c6_counterexample_stale_resources :
    Song.find_resources
        { title := strL ("a"),
          resources := some [{ resource_type := .vstr (strL ("sheet")),
                               location := .vstr (strL ("old")) }] }
        (strL ("sheet")) [(strL ("d"), [strL ("b.png")])] (some (strL (".png"))) =
      .ok ({ title := strL ("a"),
             resources := some [{ resource_type := .vstr (strL ("sheet")),
                                  location := .vstr (strL ("old")) }] }, true) :=
  rfl

/-- Claim C6 (amended): whenever `find_resources` returns, its boolean
result is the truthiness of the whole `resources` list after the call —
it is true iff the post-call list is non-empty, counting resources that
were already present before the call. -/
theorem c6_result_is_post_call_truthiness (s : Song) (rt : List Char) (lib : Walk)
    (ext : Option (List Char)) (p : Song × Bool)
    (h : s.find_resources rt lib ext = .ok p) :
    p.2 = true ↔ p.1.resources.getD [] ≠ [] := by
  unfold Song.find_resources at h
  split at h
  · simp at h
  · dsimp only at h
    split at h
    · simp at h
    · simp only [Except.ok.injEq] at h
      subst h
      simp [List.isEmpty_iff]

/-- Claim C6 witness: a fresh song finding one sheet gets `true` and a
non-empty post-call resources list. -/
theorem c6_result_is_post_call_truthiness_witness :
    Song.find_resources { title := strL ("a") } (strL ("sheet"))
        [(strL ("d"), [strL ("a.png")])] (some (strL (".png"))) =
      .ok ({ title := strL ("a"),
             resources := some [{ resource_type := .vstr (strL ("sheet")),
                                  location := .vstr (strL ("d/a.png")) }] }, true) ∧
    (true = true ↔
      ({ title := strL ("a"),
         resources := some [{ resource_type := .vstr (strL ("sheet")),
                              location := .vstr (strL ("d/a.png")) }] } : Song
        ).resources.getD [] ≠ []) := by
  refine ⟨rfl, ?_⟩
  exact c6_result_is_post_call_truthiness { title := strL ("a") } (strL ("sheet"))
    [(strL ("d"), [strL ("a.png")])] (some (strL (".png")))
    ({ title := strL ("a"),
       resources := some [{ resource_type := .vstr (strL ("sheet")),
                            location := .vstr (strL ("d/a.png")) }] }, true) rfl

/-- Claim C7: the claim says a header mismatch always fails with
`InvalidArgument`, including for a file containing only a header row and
no data rows.  Because `csv.DictReader` consumes the header and the
validation sits inside the loop over the remaining rows, a file whose
only row is a wrong header (here the legacy header where the current one
was expected) is never validated: the import silently returns an empty
catalog, contradicting the source's own docstring ("raise if the csv
header is incorrect"). -/
theorem c7_header_only_mismatch_is_silent :
    SongList.from_csv (strL ("songs.csv")) [LEGACY_HEADER] false =
      .ok { name := strL ("songs.csv"), songs := [] } :=
  rfl

/-- Claim C8: the claim says records produced by `Song.info` (the shape
exported by `export_song_info`) are themselves loadable by
`load_info_from_list`.  The exporter writes each resource under the
attribute name `resource_type`, but the loader reads `resource["type"]`,
so loading a song's own exported record raises `KeyError('type')`
instead of rebuilding the resource. -/
theorem c8_info_records_not_loadable :
    Song.load_info_from_list { title := strL ("t") }
        [Song.info { title := strL ("t"),
                     resources := some [{ resource_type := .vstr (strL ("sheet")),
                                          location := .vstr (strL ("x")) }] }] =
      .error (.keyError (strL ("type"))) :=
  rfl

/-- Claim C9 counterexample: the claim says `sort` returns a (stably
re-ordered, same-named) catalog for every catalog and implemented sort
key; but with `by="original_key"` on a catalog of two songs that both
lack a key, Python compares `None` with `None`, which raises
`TypeError`, so no catalog is returned at all. -/
theorem c9_counterexample_sort_can_raise :
    SongList.sort
        { name := strL ("L"),
          songs := [{ title := strL ("a") }, { title := strL ("b") }] }
        (strL ("original_key")) false false = .error .typeError :=
  rfl

/-- Claim C9 (amended): whenever `sort` does return a catalog (always
for `by="title"`; for the key sorts, when at most one song or no missing
key is involved), the result keeps the receiver's name, is a permutation
of the receiver's songs, and is stable: for every value of the selected
sort key, the songs carrying that key appear in exactly their original
relative order.  The receiver itself is untouched (the source builds the
new list with `sorted`, never mutating `self.songs`; the embedding is
accordingly pure in `sl`). -/
theorem c9_sort_stable_and_name_preserving (sl : SongList) (by_ : List Char)
    (desc legacy : Bool) (r : SongList) (h : sl.sort by_ desc legacy = .ok r) :
    r.name = sl.name ∧ List.Perm r.songs sl.songs ∧
      ∀ f, selectSortFunc by_ = .ok f →
        ∀ k : SKey, r.songs.filter (fun s => decide (f s = k)) =
          sl.songs.filter (fun s => decide (f s = k)) := by
  unfold SongList.sort at h
  split at h
  case isFalse => simp at h
  case isTrue hg =>
    cases hsel : selectSortFunc by_ with
    | error e => rw [hsel] at h; simp at h
    | ok f0 =>
      rw [hsel] at h
      dsimp only at h
      cases hps : pySorted f0 desc sl.songs with
      | error e => rw [hps] at h; simp at h
      | ok songs =>
        rw [hps] at h
        simp only [Except.ok.injEq] at h
        subst h
        have hms := pySorted_ok hps
        subst hms
        refine ⟨rfl, List.mergeSort_perm sl.songs _, ?_⟩
        intro f hf k
        have hfe : f0 = f := Except.ok.inj hf
        subst hfe
        exact mergeSort_key_stable _ desc sl.songs k

/-- One-song catalog used to witness the amended sort claim. -/
def c9SL : SongList := { name := strL ("L"), songs := [{ title := strL ("b") }] }

/-- Claim C9 witness: sorting the one-song catalog by title returns it
unchanged, and the amended theorem applies to that call. -/
theorem c9_sort_stable_and_name_preserving_witness :
    c9SL.sort (strL ("title")) false false = .ok c9SL ∧
    c9SL.name = c9SL.name ∧ List.Perm c9SL.songs c9SL.songs ∧
    c9SL.songs.filter
        (fun s => decide (SongList.sort_by_pinyin_title s = .kstrs [strL ("B")])) =
      c9SL.songs.filter
        (fun s => decide (SongList.sort_by_pinyin_title s = .kstrs [strL ("B")])) := by
  have e : c9SL.sort (strL ("title")) false false =
      .ok { name := strL ("L"),
            songs := [({ title := strL ("b") } : Song)].mergeSort
              (songLe SongList.sort_by_pinyin_title false) } := rfl
  have h : c9SL.sort (strL ("title")) false false = .ok c9SL := by
    rw [e, List.mergeSort_singleton]
    rfl
  have h2 := c9_sort_stable_and_name_preserving c9SL (strL ("title")) false false c9SL h
  exact ⟨h, h2.1, h2.2.1, h2.2.2 _ rfl _⟩

theorem findMulSongs_eq_nil {what : List Char} (h1 : what ≠ strL ("sheet"))
    (h2 : what ≠ strL ("media")) (dirpath filename : List Char) :
    ∀ songs, findMulSongs what dirpath filename songs = [] := by
  intro songs
  induction songs with
  | nil => rfl
  | cons s ss ih => simp [findMulSongs, h1, h2, ih]

theorem findMulFiles_eq_nil {what : List Char} (h1 : what ≠ strL ("sheet"))
    (h2 : what ≠ strL ("media")) (dirpath : List Char) (songs : List Song) :
    ∀ files, findMulFiles what dirpath songs files = [] := by
  intro files
  induction files with
  | nil => rfl
  | cons f fs ih => simp [findMulFiles, findMulSongs_eq_nil h1 h2, ih]

/-- Claim C10: unlike `find` — which raises `ValueError` for any kind
other than "sheet"/"media" — `find_multiple` performs no kind
validation: for every unrecognized kind, every walked tree and every
catalog it returns the plain empty list, neither raising nor returning
Python `False`. -/
theorem c10_find_multiple_total_unlike_find (what : List Char)
    (h1 : what ≠ strL ("sheet")) (h2 : what ≠ strL ("media")) :
    (∀ (path : Walk) (sl : SongList), find_multiple what path sl = []) ∧
      (∀ (title : List Char) (path : Walk),
        find title what path = .error .valueError) := by
  constructor
  · intro path sl
    induction path with
    | nil => rfl
    | cons d rest ih =>
      obtain ⟨dirpath, files⟩ := d
      show findMulFiles what dirpath sl.songs files ++ find_multiple what rest sl = []
      rw [findMulFiles_eq_nil h1 h2, ih, List.append_nil]
  · intro title path
    unfold find
    rw [if_pos ⟨h1, h2⟩]

/-- Claim C10 witness: the kind "lyrics" is neither "sheet" nor "media";
`find_multiple` returns `[]` on a walk containing a sheet file, while
`find` raises `ValueError`. -/
theorem c10_find_multiple_total_unlike_find_witness :
    find_multiple (strL ("lyrics")) [(strL ("d"), [strL ("a.png")])]
        { name := strL ("L"), songs := [{ title := strL ("a") }] } = [] ∧
      find (strL ("a")) (strL ("lyrics")) [] = .error .valueError := by
  have h := c10_find_multiple_total_unlike_find (strL ("lyrics"))
    (by decide) (by decide)
  exact ⟨h.1 _ _, h.2 _ _⟩

end Legoworship
